import Mathlib

/-!
Verification of the Bedrock memory-arena allocation subsystem.

The allocator adapters (`DefaultAllocator`, `TempAllocator`,
`ArenaAllocatorBase`, `VMemAllocator`) are embedded from
`src/Bedrock/Allocator.h`, the test harness from `src/Bedrock/Test.cpp`
and `Span` from the unnamed span header.  The backing arena types
(`MemArena`, `VMemArena`), the heap entry points (`gMemAlloc`,
`gMemFree`) and the small helpers `gBoundsCheck` / `gMin` are declared
in headers that are not part of this excerpt; they are modelled from the
specification (sections 3, 4.1 and 4.2) and marked as such.

Modelling conventions:
- pointers are `Option Nat` (`none` is `nullptr`, `some a` is address `a`);
- element counts and byte sizes are natural numbers (the C++ `int`
  arguments of the adapters are non-negative in every defined use);
- the process heap is ambient global state in C++, so every operation
  that may touch it threads an explicit `Heap` value; the `Heap` records
  the blocks handed out by `gMemAlloc` and received by `gMemFree` so
  that routing and byte lengths are observable;
- a failed `gAssert` is modelled by an operation returning `none` in an
  `Option` result (debug assertion failure instead of a value).
-/

/-- A pointer: `none` models `nullptr`. -/
abbrev Ptr := Option Nat

/-- `MemBlock` from `Memory.h` as used by `Allocator.h`: a pointer plus a
byte length.  A null block has pointer `none` and length 0. -/
structure MemBlock where
  mPtr : Ptr
  mSize : Nat
deriving DecidableEq, Repr

/-- `mem != nullptr` on a `MemBlock` compares the pointer against null. -/
def MemBlock.isNull (b : MemBlock) : Bool :=
  b.mPtr.isNone

/-- The process heap, modelled as ambient state: a fresh-address counter
plus the history of blocks returned by `gMemAlloc` (most recent first)
and of blocks passed to `gMemFree` (most recent first). -/
structure Heap where
  next : Nat
  allocs : List MemBlock
  freed : List MemBlock
deriving DecidableEq, Repr

/-- Modelled from the spec: `gMemAlloc` allocates from the heap.  The
heap never fails at this layer (heap failure is fatal, section 4.3); it
returns a fresh block of exactly the requested byte size. -/
def gMemAlloc (h : Heap) (inSize : Nat) : MemBlock × Heap :=
  let blk : MemBlock := ⟨some h.next, inSize⟩
  (blk, ⟨h.next + inSize + 1, blk :: h.allocs, h.freed⟩)

/-- Modelled from the spec: `gMemFree` returns a block to the heap; the
model records the freed block. -/
def gMemFree (h : Heap) (b : MemBlock) : Heap :=
  ⟨h.next, h.allocs, b :: h.freed⟩

/-- A pending out-of-order free of the bounded arena: an offset from the
start of the buffer and a byte size (spec section 3). -/
structure FreeBlock where
  offset : Nat
  size : Nat
deriving DecidableEq, Repr

/-- Modelled from the spec (section 3): `MemArena`, the bounded arena — a
contiguous buffer of fixed capacity, a bump cursor `top`, and a table of
at most `maxPending` pending out-of-order frees. -/
structure MemArena where
  mBegin : Nat
  capacity : Nat
  top : Nat
  pending : List FreeBlock
  maxPending : Nat
deriving DecidableEq, Repr

/-- Modelled from the spec (section 4.1): `MemArena::Alloc` bumps `top`
by the requested byte count when it fits the capacity and otherwise
fails by returning a null `MemBlock`, leaving the arena unchanged. -/
def MemArena.Alloc (a : MemArena) (inSize : Nat) : MemBlock × MemArena :=
  if a.top + inSize ≤ a.capacity then
    (⟨some (a.mBegin + a.top), inSize⟩, { a with top := a.top + inSize })
  else
    (⟨none, 0⟩, a)

/-- Modelled from the spec (section 4.1): `MemArena::Owns` is true iff
the pointer falls within the arena's backing buffer range. -/
def MemArena.Owns (a : MemArena) (p : Ptr) : Bool :=
  match p with
  | none => false
  | some q => decide (a.mBegin ≤ q) && decide (q < a.mBegin + a.capacity)

/-- Find the pending entry that ends exactly at `top`, if any (the
entries in the pending table are mutually non-overlapping, spec
section 3, so there is at most one). -/
def findPendingAt (pending : List FreeBlock) (top : Nat) : Option FreeBlock :=
  pending.find? (fun f => f.offset + f.size = top)

/-- Modelled from the spec (section 4.1): after a LIFO retraction,
repeatedly remove the pending entry that ends exactly at the new `top`
and retract `top` to its offset. -/
def coalesce (top : Nat) (pending : List FreeBlock) : Nat × List FreeBlock :=
  match hf : findPendingAt pending top with
  | none => (top, pending)
  | some f =>
      have hmem : f ∈ pending := List.mem_of_find?_eq_some hf
      have : (pending.erase f).length < pending.length := by
        rw [List.length_erase_of_mem hmem]
        exact Nat.sub_lt (List.length_pos_of_mem hmem) Nat.one_pos
      coalesce f.offset (pending.erase f)
termination_by pending.length

/-- Modelled from the spec (section 4.1): `MemArena::Free`.  Freeing the
most recent allocation retracts `top` and coalesces with the pending
table; an out-of-order free is recorded in the pending table when it has
room and is otherwise leaked until reset. -/
def MemArena.Free (a : MemArena) (b : MemBlock) : MemArena :=
  match b.mPtr with
  | none => a
  | some p =>
      let off := p - a.mBegin
      if off + b.mSize = a.top then
        let r := coalesce off a.pending
        { a with top := r.1, pending := r.2 }
      else if a.pending.length < a.maxPending then
        { a with pending := ⟨off, b.mSize⟩ :: a.pending }
      else
        a

/-- Modelled from the spec (section 4.1): `MemArena::TryRealloc`
succeeds only if the block is the current top allocation and the new
size fits the capacity; on success it adjusts `top` in place. -/
def MemArena.TryRealloc (a : MemArena) (mem : MemBlock) (inNewSize : Nat) :
    Bool × MemArena :=
  match mem.mPtr with
  | none => (false, a)
  | some p =>
      let off := p - a.mBegin
      if off + mem.mSize = a.top ∧ off + inNewSize ≤ a.capacity then
        (true, { a with top := off + inNewSize })
      else
        (false, a)

/-! ## The Default (heap) adapter, from `src/Bedrock/Allocator.h` lines 8-18.

`sizeof(taType)` is the explicit parameter `sz`. -/

/-- `DefaultAllocator::Allocate`: `gMemAlloc(inSize * sizeof(taType))`. -/
def DefaultAllocator.Allocate (h : Heap) (inSize sz : Nat) : Ptr × Heap :=
  let r := gMemAlloc h (inSize * sz)
  (r.1.mPtr, r.2)

/-- `DefaultAllocator::Free`: `gMemFree({ inPtr, inSize * sizeof(taType) })`. -/
def DefaultAllocator.Free (h : Heap) (inPtr : Ptr) (inSize sz : Nat) : Heap :=
  gMemFree h ⟨inPtr, inSize * sz⟩

/-- `DefaultAllocator::TryRealloc`: asserts the pointer is non-null
(`none` result models the failed assertion) and returns `false`. -/
def DefaultAllocator.TryRealloc (inPtr : Ptr) (inCurrentSize inNewSize : Nat) :
    Option Bool :=
  match inPtr with
  | none => none
  | some _ => some false

/-! ## The Temp adapter, from `src/Bedrock/Allocator.h` lines 22-33 and 95-129.

`gTempMemArena` is the thread-local arena, threaded as the `MemArena`
argument. -/

/-- `TempAllocator::Allocate`: allocate from the thread-local temp
arena; if the arena returns null, fall back to the default allocator. -/
def TempAllocator.Allocate (a : MemArena) (h : Heap) (inSize sz : Nat) :
    Ptr × MemArena × Heap :=
  let r := a.Alloc (inSize * sz)
  if r.1.isNull then
    let d := DefaultAllocator.Allocate h inSize sz
    (d.1, r.2, d.2)
  else
    (r.1.mPtr, r.2, h)

/-- `TempAllocator::Free`: free to the temp arena when it owns the
pointer, otherwise to the default allocator. -/
def TempAllocator.Free (a : MemArena) (h : Heap) (inPtr : Ptr) (inSize sz : Nat) :
    MemArena × Heap :=
  if a.Owns inPtr then
    (a.Free ⟨inPtr, inSize * sz⟩, h)
  else
    (a, DefaultAllocator.Free h inPtr inSize sz)

/-- `TempAllocator::TryRealloc`: asserts the pointer is non-null, then
delegates to the temp arena when it owns the pointer and to
`DefaultAllocator::TryRealloc` otherwise. -/
def TempAllocator.TryRealloc (a : MemArena) (inPtr : Ptr)
    (inCurrentSize inNewSize sz : Nat) : Option (Bool × MemArena) :=
  match inPtr with
  | none => none
  | some p =>
      if a.Owns (some p) then
        some (a.TryRealloc ⟨some p, inCurrentSize * sz⟩ (inNewSize * sz))
      else
        match DefaultAllocator.TryRealloc (some p) inCurrentSize inNewSize with
        | none => none
        | some b => some (b, a)

/-! ## The arena-backed adapter, from `src/Bedrock/Allocator.h` lines 36-57
and 132-139.

The referenced external arena is the `MemArena` argument; the ambient
heap is threaded untouched to make the absence of any heap fallback
observable. -/

/-- `ArenaAllocatorBase::Allocate`: delegate to the referenced arena. -/
def ArenaAllocatorBase.Allocate (a : MemArena) (h : Heap) (inSize sz : Nat) :
    Ptr × MemArena × Heap :=
  let r := a.Alloc (inSize * sz)
  (r.1.mPtr, r.2, h)

/-- `ArenaAllocatorBase::Free`: always delegate to the referenced arena. -/
def ArenaAllocatorBase.Free (a : MemArena) (h : Heap) (inPtr : Ptr)
    (inSize sz : Nat) : MemArena × Heap :=
  (a.Free ⟨inPtr, inSize * sz⟩, h)

/-- `ArenaAllocatorBase::TryRealloc`: asserts the pointer is non-null,
then delegates to the referenced arena. -/
def ArenaAllocatorBase.TryRealloc (a : MemArena) (h : Heap) (inPtr : Ptr)
    (inCurrentSize inNewSize sz : Nat) : Option ((Bool × MemArena) × Heap) :=
  match inPtr with
  | none => none
  | some p =>
      some (a.TryRealloc ⟨some p, inCurrentSize * sz⟩ (inNewSize * sz), h)

/-! ## The growable virtual-memory arena and its adapter.

`VMemArena` is declared in a header outside this excerpt; it is
modelled from the spec (sections 3, 4.2).  The `VMemAllocator` adapter
itself is embedded from `src/Bedrock/Allocator.h` lines 65-90 and
142-161; it instantiates `VMemArena<0>` (zero tolerated out-of-order
frees). -/

/-- Modelled from the spec (section 4.2): the growable virtual arena — a
reserved address range (`memBlock` is its base address, `none` while no
reservation has been made), a committed prefix that grows in increments
of `commitIncreaseSize` up to `reservedSize`, and a bump cursor. -/
structure VMemArena where
  memBlock : Ptr
  reservedSize : Nat
  committedSize : Nat
  commitIncreaseSize : Nat
  top : Nat
deriving DecidableEq, Repr

/-- A default-constructed `VMemArena`: no reservation made. -/
def VMemArena.mkDefault : VMemArena :=
  ⟨none, 0, 0, 0, 0⟩

/-- Modelled from the spec (section 4.2): constructing a `VMemArena`
with explicit sizes reserves the address range (at a base chosen by the
operating system, passed here as `base`) without committing it. -/
def VMemArena.reserve (base reserved commitIncrease : Nat) : VMemArena :=
  ⟨some base, reserved, 0, commitIncrease, 0⟩

/-- Round `x` up to the next multiple of `inc` (page-commit granularity). -/
def roundUpTo (x inc : Nat) : Nat :=
  if inc = 0 then x else (x + inc - 1) / inc * inc

/-- Modelled from the spec (section 4.2): `VMemArena::Alloc` — when the
request stays within the reserved range, commit additional increments
as needed and bump the cursor; when it would exceed the reserved range,
fail with a null block.  The base address never moves. -/
def VMemArena.Alloc (a : VMemArena) (inSize : Nat) : MemBlock × VMemArena :=
  match a.memBlock with
  | none => (⟨none, 0⟩, a)
  | some base =>
      if a.top + inSize ≤ a.reservedSize then
        let c :=
          if a.top + inSize ≤ a.committedSize then a.committedSize
          else min a.reservedSize (roundUpTo (a.top + inSize) a.commitIncreaseSize)
        (⟨some (base + a.top), inSize⟩,
          { a with top := a.top + inSize, committedSize := c })
      else
        (⟨none, 0⟩, a)

/-- Modelled from the spec (sections 4.1, 4.2): `VMemArena::Free` with
zero tolerated out-of-order frees — a LIFO free retracts the cursor; an
out-of-order free is a usage error (debug assertion) and leaves the
model unchanged. -/
def VMemArena.Free (a : VMemArena) (b : MemBlock) : VMemArena :=
  match a.memBlock, b.mPtr with
  | some base, some p =>
      let off := p - base
      if off + b.mSize = a.top then { a with top := off } else a
  | _, _ => a

/-- Modelled from the spec (sections 4.1, 4.2): `VMemArena::TryRealloc`
succeeds only on the current top allocation and within the reserved
range, committing further increments as needed; the data never moves. -/
def VMemArena.TryRealloc (a : VMemArena) (mem : MemBlock) (inNewSize : Nat) :
    Bool × VMemArena :=
  match a.memBlock, mem.mPtr with
  | some base, some p =>
      let off := p - base
      if off + mem.mSize = a.top ∧ off + inNewSize ≤ a.reservedSize then
        let c :=
          if off + inNewSize ≤ a.committedSize then a.committedSize
          else min a.reservedSize (roundUpTo (off + inNewSize) a.commitIncreaseSize)
        (true, { a with top := off + inNewSize, committedSize := c })
      else
        (false, a)
  | _, _ => (false, a)

/-- Modelled from the spec: the default reserved size of a `VMemArena`
(the exact constant is declared outside this excerpt; its value does
not matter to any claim). -/
def cDefaultReservedSize : Nat := 268435456

/-- Modelled from the spec: the default commit-increment size of a
`VMemArena` (exact constant declared outside this excerpt). -/
def cDefaultCommitSize : Nat := 262144

/-- `VMemAllocator::Allocate`: if the owned arena was never initialized
(its memory block is null), initialize it now with the default reserved
and commit sizes (the fresh base address `base` is chosen by the
operating system), then allocate from it. -/
def VMemAllocator.Allocate (base : Nat) (a : VMemArena) (inSize sz : Nat) :
    Ptr × VMemArena :=
  let a1 :=
    if a.memBlock = none then
      VMemArena.reserve base cDefaultReservedSize cDefaultCommitSize
    else a
  let r := a1.Alloc (inSize * sz)
  (r.1.mPtr, r.2)

/-- `VMemAllocator::Free`: always delegate to the owned arena. -/
def VMemAllocator.Free (a : VMemArena) (inPtr : Ptr) (inSize sz : Nat) :
    VMemArena :=
  a.Free ⟨inPtr, inSize * sz⟩

/-- `VMemAllocator::TryRealloc`: asserts the pointer is non-null, then
delegates to the owned arena. -/
def VMemAllocator.TryRealloc (a : VMemArena) (inPtr : Ptr)
    (inCurrentSize inNewSize sz : Nat) : Option (Bool × VMemArena) :=
  match inPtr with
  | none => none
  | some p =>
      some (a.TryRealloc ⟨some p, inCurrentSize * sz⟩ (inNewSize * sz))

/-! ## The test harness, from `src/Bedrock/Test.cpp`.

A test function is opaque code that may call `gFailTest` any number of
times; it is modelled as the list of relevant actions it performs. -/

/-- Result of running all tests (`TestResult` from `Test.h`). -/
inductive TestResult where
  | Success
  | Failure
deriving DecidableEq, Repr

/-- An action a test function may perform: a call to `gFailTest`, or
anything else (which does not touch the harness state). -/
inductive TestAction where
  | failTest
  | other
deriving DecidableEq, Repr

/-- A registered test: a name and the body of its test function. -/
structure Test where
  mName : String
  mFunction : List TestAction

/-- The thread-local harness state of `Test.cpp`: the current test name
and the current test's success flag. -/
structure TestState where
  sCurrentTestName : String
  sCurrentTestSuccess : Bool
deriving DecidableEq, Repr

/-- `gFailTest` marks the currently running test as failed. -/
def gFailTest (s : TestState) : TestState :=
  { s with sCurrentTestSuccess := false }

/-- One step of a test function's body acting on the harness state. -/
def runTestAction (s : TestState) (act : TestAction) : TestState :=
  match act with
  | .failTest => gFailTest s
  | .other => s

/-- The per-test part of the `gRunTests` loop body: set the current
name, set the success flag, run the test function, read the flag. -/
def runTestCase (t : Test) : Bool :=
  (t.mFunction.foldl runTestAction ⟨t.mName, true⟩).sCurrentTestSuccess

/-- `gRunTests`: run every registered test, and the aggregate result is
`Success` exactly when the conjunction of all per-case flags is true. -/
def gRunTests (tests : List Test) : TestResult :=
  let allSuccess := tests.foldl (fun acc t => acc && runTestCase t) true
  if allSuccess then .Success else .Failure

/-! ## `Span`, from the unnamed span header.

The data pointer is modelled as an element index (pointer arithmetic on
`taType*` advances element-wise); sizes are C++ `int`, embedded as
`Int`. -/

/-- `Span`: a non-owning view, a data pointer plus an element count. -/
structure Span where
  mData : Int
  mSize : Int
deriving DecidableEq, Repr

/-- Modelled from the spec: `gBoundsCheck(index, size)` asserts
`0 ≤ index ≤ size` (an index equal to the size must pass, since
`First(Size())`, `Last(Size())` and `SubSpan(Size())` are valid). -/
def gBoundsCheck (index size : Int) : Bool :=
  decide (0 ≤ index) && decide (index ≤ size)

/-- Modelled from the spec: `gMin` from the algorithm helpers returns
the smaller argument. -/
def gMin (a b : Int) : Int :=
  if a < b then a else b

/-- `Span::SubSpan`: bounds-check the position (a failed check is a
debug assertion, modelled as `none`), then return the sub-span starting
there whose size is the requested count clamped to what remains. -/
def Span.SubSpan (s : Span) (inPosition inCount : Int) : Option Span :=
  if gBoundsCheck inPosition s.mSize then
    some ⟨s.mData + inPosition, gMin inCount (s.mSize - inPosition)⟩
  else
    none

/-! ## Concrete sample states used by the witnesses. -/

/-- A small bounded arena: buffer at address 100, capacity 16 bytes,
cursor at 8, empty pending table with room for 2 entries. -/
def sampleArena : MemArena :=
  ⟨100, 16, 8, [], 2⟩

/-- A heap state with fresh addresses starting at 1000. -/
def sampleHeap : Heap :=
  ⟨1000, [], []⟩

/-- A small initialized virtual arena: base 5, 100 bytes reserved,
commit increment 10, nothing allocated yet. -/
def sampleVMem : VMemArena :=
  VMemArena.reserve 5 100 10

/-- The sample virtual arena after 8 bytes have been allocated
(base 5, 100 reserved, 10 committed, increment 10, cursor at 8). -/
def sampleVMemBusy : VMemArena :=
  ⟨some 5, 100, 10, 10, 8⟩

/-! ## Helper lemmas. -/

/-- Coalescing against an empty pending table does nothing. -/
theorem coalesce_nil (top : Nat) : coalesce top [] = (top, []) := by
  unfold coalesce findPendingAt
  simp

/-- `VMemArena::Alloc` never changes the base address, the reserved
size or the commit increment of the arena. -/
theorem vmemAlloc_preserves (a : VMemArena) (n : Nat) :
    ((a.Alloc n).2).memBlock = a.memBlock
    ∧ ((a.Alloc n).2).reservedSize = a.reservedSize
    ∧ ((a.Alloc n).2).commitIncreaseSize = a.commitIncreaseSize := by
  cases hm : a.memBlock with
  | none => simp [VMemArena.Alloc, hm]
  | some base =>
      by_cases hfit : a.top + n ≤ a.reservedSize <;>
        simp [VMemArena.Alloc, hm, hfit]

/-- `VMemArena::Free` never changes the base address of the arena. -/
theorem vmemFree_preserves (a : VMemArena) (b : MemBlock) :
    (a.Free b).memBlock = a.memBlock := by
  cases hm : a.memBlock with
  | none => simp [VMemArena.Free, hm]
  | some base =>
      cases hp : b.mPtr with
      | none => simp [VMemArena.Free, hm, hp]
      | some p =>
          simp only [VMemArena.Free, hm, hp]
          split <;> simp [hm]

/-- `VMemArena::TryRealloc` never changes the base address of the arena. -/
theorem vmemTryRealloc_preserves (a : VMemArena) (b : MemBlock) (n : Nat) :
    ((a.TryRealloc b n).2).memBlock = a.memBlock := by
  cases hm : a.memBlock with
  | none => simp [VMemArena.TryRealloc, hm]
  | some base =>
      cases hp : b.mPtr with
      | none => simp [VMemArena.TryRealloc, hm, hp]
      | some p =>
          simp only [VMemArena.TryRealloc, hm, hp]
          split <;> simp [hm]

/-! ## Claims. -/

/-- C8: the Default (heap) adapter's `TryRealloc` returns `false` for
every non-null pointer and every pair of sizes — a heap block is never
resized in place. -/
theorem default_tryRealloc_always_false (p inCurrentSize inNewSize : Nat) :
    DefaultAllocator.TryRealloc (some p) inCurrentSize inNewSize = some false :=
  rfl

/-- C4: on each of the four adapters, `TryRealloc` on a null pointer is
a usage error caught by the debug assertion `gAssert(inPtr != nullptr)`
(modelled as the `none` result), not an error return value. -/
theorem tryRealloc_null_asserts (a : MemArena) (v : VMemArena) (h : Heap)
    (inCurrentSize inNewSize sz : Nat) :
    DefaultAllocator.TryRealloc none inCurrentSize inNewSize = none
    ∧ TempAllocator.TryRealloc a none inCurrentSize inNewSize sz = none
    ∧ ArenaAllocatorBase.TryRealloc a h none inCurrentSize inNewSize sz = none
    ∧ VMemAllocator.TryRealloc v none inCurrentSize inNewSize sz = none :=
  ⟨rfl, rfl, rfl, rfl⟩

/-- C9: for the Temp adapter, `TryRealloc` on a non-null pointer that
the temp arena does not own delegates to the Default adapter and hence
always returns `false`, leaving the arena unchanged. -/
theorem temp_tryRealloc_foreign_false (a : MemArena)
    (p inCurrentSize inNewSize sz : Nat)
    (hOwns : a.Owns (some p) = false) :
    TempAllocator.TryRealloc a (some p) inCurrentSize inNewSize sz =
      some (false, a) := by
  simp [TempAllocator.TryRealloc, hOwns, DefaultAllocator.TryRealloc]

/-- Witness for C9: address 5 lies below the sample arena's buffer, so
the arena does not own it and `TryRealloc` fails. -/
theorem temp_tryRealloc_foreign_false_witness :
    TempAllocator.TryRealloc sampleArena (some 5) 1 2 4 =
      some (false, sampleArena) :=
  temp_tryRealloc_foreign_false sampleArena 5 1 2 4 (by decide)

/-- C2: on the arena-backed adapter, `TryRealloc` with a non-null
pointer fails whenever the block is not the arena's most recent
allocation, regardless of capacity; on the most recent allocation it
succeeds exactly when the new byte size fits the capacity, adjusting
the cursor in place (only `top` changes, the data stays put). -/
theorem arena_tryRealloc_top_only (a : MemArena) (h : Heap)
    (p inCurrentSize inNewSize sz : Nat) :
    ((p - a.mBegin) + inCurrentSize * sz ≠ a.top →
      ArenaAllocatorBase.TryRealloc a h (some p) inCurrentSize inNewSize sz =
        some ((false, a), h))
    ∧ ((p - a.mBegin) + inCurrentSize * sz = a.top →
        (p - a.mBegin) + inNewSize * sz ≤ a.capacity →
        ArenaAllocatorBase.TryRealloc a h (some p) inCurrentSize inNewSize sz =
          some ((true, { a with top := (p - a.mBegin) + inNewSize * sz }), h))
    ∧ ((p - a.mBegin) + inCurrentSize * sz = a.top →
        a.capacity < (p - a.mBegin) + inNewSize * sz →
        ArenaAllocatorBase.TryRealloc a h (some p) inCurrentSize inNewSize sz =
          some ((false, a), h)) := by
  refine ⟨fun hne => ?_, fun htop hfit => ?_, fun htop hnofit => ?_⟩
  · have hcond : ¬((p - a.mBegin) + inCurrentSize * sz = a.top
        ∧ (p - a.mBegin) + inNewSize * sz ≤ a.capacity) := fun hc => hne hc.1
    simp [ArenaAllocatorBase.TryRealloc, MemArena.TryRealloc, hcond]
  · have hcond : (p - a.mBegin) + inCurrentSize * sz = a.top
        ∧ (p - a.mBegin) + inNewSize * sz ≤ a.capacity := ⟨htop, hfit⟩
    simp [ArenaAllocatorBase.TryRealloc, MemArena.TryRealloc, hcond]
  · have hcond : ¬((p - a.mBegin) + inCurrentSize * sz = a.top
        ∧ (p - a.mBegin) + inNewSize * sz ≤ a.capacity) :=
      fun hc => absurd hc.2 (Nat.not_le_of_lt hnofit)
    simp [ArenaAllocatorBase.TryRealloc, MemArena.TryRealloc, hcond]

/-- Witness for C2 on the sample arena (buffer at 100, capacity 16,
cursor at 8): a stale block at offset 4 cannot be regrown even though
room remains; the top block at offset 0 grows to 12 bytes but not
to 20. -/
theorem arena_tryRealloc_top_only_witness :
    ArenaAllocatorBase.TryRealloc sampleArena sampleHeap (some 104) 2 3 4 =
      some ((false, sampleArena), sampleHeap)
    ∧ ArenaAllocatorBase.TryRealloc sampleArena sampleHeap (some 100) 2 3 4 =
        some ((true, { sampleArena with top := 12 }), sampleHeap)
    ∧ ArenaAllocatorBase.TryRealloc sampleArena sampleHeap (some 100) 2 5 4 =
        some ((false, sampleArena), sampleHeap) :=
  ⟨(arena_tryRealloc_top_only sampleArena sampleHeap 104 2 3 4).1 (by decide),
   (arena_tryRealloc_top_only sampleArena sampleHeap 100 2 3 4).2.1
     (by decide) (by decide),
   (arena_tryRealloc_top_only sampleArena sampleHeap 100 2 5 4).2.2
     (by decide) (by decide)⟩

/-- C5: the arena-backed adapter has no fallback — `Allocate` returns
null exactly when the referenced arena returns a null block, which
happens exactly when the request exceeds the remaining capacity, the
heap is never touched, and `Free` always delegates to the arena. -/
theorem arena_adapter_no_fallback (a : MemArena) (h : Heap) (inPtr : Ptr)
    (inSize sz : Nat) :
    ((ArenaAllocatorBase.Allocate a h inSize sz).1 = none ↔
      ((a.Alloc (inSize * sz)).1).mPtr = none)
    ∧ ((ArenaAllocatorBase.Allocate a h inSize sz).1 = none ↔
        a.capacity < a.top + inSize * sz)
    ∧ (ArenaAllocatorBase.Allocate a h inSize sz).2.2 = h
    ∧ ArenaAllocatorBase.Free a h inPtr inSize sz = (a.Free ⟨inPtr, inSize * sz⟩, h) := by
  refine ⟨?_, ?_, rfl, rfl⟩ <;>
    by_cases hc : a.top + inSize * sz ≤ a.capacity <;>
      · simp [ArenaAllocatorBase.Allocate, MemArena.Alloc, hc]
        try omega

/-- C1: the Temp adapter serves an allocation from the thread-local
temp arena when the arena block is non-null (which happens exactly when
the request fits the remaining capacity) and falls back to the Default
heap allocator exactly when the arena returns null; `Free` routes to
the temp arena precisely when the arena owns the pointer and otherwise
to the Default heap free path. -/
theorem temp_alloc_free_routing (a : MemArena) (h : Heap) (inSize sz p : Nat) :
    (a.top + inSize * sz ≤ a.capacity →
      TempAllocator.Allocate a h inSize sz =
        (some (a.mBegin + a.top), { a with top := a.top + inSize * sz }, h))
    ∧ (a.capacity < a.top + inSize * sz →
        TempAllocator.Allocate a h inSize sz =
          ((DefaultAllocator.Allocate h inSize sz).1, a,
            (DefaultAllocator.Allocate h inSize sz).2))
    ∧ (a.Owns (some p) = true →
        TempAllocator.Free a h (some p) inSize sz =
          (a.Free ⟨some p, inSize * sz⟩, h))
    ∧ (a.Owns (some p) = false →
        TempAllocator.Free a h (some p) inSize sz =
          (a, DefaultAllocator.Free h (some p) inSize sz)) := by
  refine ⟨fun hfit => ?_, fun hover => ?_, fun hOwns => ?_, fun hOwns => ?_⟩
  · simp [TempAllocator.Allocate, MemArena.Alloc, MemBlock.isNull, hfit]
  · have hc : ¬(a.top + inSize * sz ≤ a.capacity) := Nat.not_le_of_lt hover
    simp [TempAllocator.Allocate, MemArena.Alloc, MemBlock.isNull, hc]
  · simp [TempAllocator.Free, hOwns]
  · simp [TempAllocator.Free, hOwns]

/-- Witness for C1 on the sample arena (buffer at 100, capacity 16,
cursor at 8) and sample heap: 8 requested bytes fit and come from the
arena; 12 requested bytes overflow and come from the heap; address 104
is arena-owned and frees to the arena; address 10 is foreign and frees
to the heap. -/
theorem temp_alloc_free_routing_witness :
    TempAllocator.Allocate sampleArena sampleHeap 2 4 =
      (some (sampleArena.mBegin + sampleArena.top),
        { sampleArena with top := sampleArena.top + 2 * 4 }, sampleHeap)
    ∧ TempAllocator.Allocate sampleArena sampleHeap 3 4 =
        ((DefaultAllocator.Allocate sampleHeap 3 4).1, sampleArena,
          (DefaultAllocator.Allocate sampleHeap 3 4).2)
    ∧ TempAllocator.Free sampleArena sampleHeap (some 104) 2 4 =
        (sampleArena.Free ⟨some 104, 2 * 4⟩, sampleHeap)
    ∧ TempAllocator.Free sampleArena sampleHeap (some 10) 2 4 =
        (sampleArena, DefaultAllocator.Free sampleHeap (some 10) 2 4) :=
  ⟨(temp_alloc_free_routing sampleArena sampleHeap 2 4 104).1 (by decide),
   (temp_alloc_free_routing sampleArena sampleHeap 3 4 104).2.1 (by decide),
   (temp_alloc_free_routing sampleArena sampleHeap 2 4 104).2.2.1 (by decide),
   (temp_alloc_free_routing sampleArena sampleHeap 2 4 10).2.2.2 (by decide)⟩

/-- C3: every adapter's `Allocate`, `Free` and `TryRealloc` convert
element counts to byte lengths as `count * sizeof(element)` before
constructing or consuming a `MemBlock`: the heap hands the Default
adapter a block of exactly `n * sz` bytes and receives back `n * sz`
bytes on free; the Temp adapter advances the arena cursor by `n * sz`
on an arena-served allocation, requests `n * sz` heap bytes on
fallback, retracts the cursor by `n * sz` on an arena-owned LIFO free
and frees `n * sz` heap bytes for foreign pointers; the arena-backed
and VMem adapters advance and retract their cursors by `n * sz`; and
the Temp, arena-backed and VMem `TryRealloc` consume a block of
`cur * sz` bytes (the top-allocation check is in those units) and
request `new * sz` bytes (the new cursor lands at the block offset
plus `new * sz`). -/
theorem adapters_convert_counts_to_bytes (a : MemArena) (v : VMemArena)
    (h : Heap) (inSize inCurrentSize inNewSize sz p vbase b0 : Nat) :
    ((DefaultAllocator.Allocate h inSize sz).2).allocs.head? =
      some ⟨some h.next, inSize * sz⟩
    ∧ (DefaultAllocator.Free h (some p) inSize sz).freed.head? =
        some ⟨some p, inSize * sz⟩
    ∧ (a.top + inSize * sz ≤ a.capacity →
        ((TempAllocator.Allocate a h inSize sz).2.1).top = a.top + inSize * sz)
    ∧ (a.capacity < a.top + inSize * sz →
        ((TempAllocator.Allocate a h inSize sz).2.2).allocs.head? =
          some ⟨some h.next, inSize * sz⟩)
    ∧ (a.Owns (some p) = false →
        ((TempAllocator.Free a h (some p) inSize sz).2).freed.head? =
          some ⟨some p, inSize * sz⟩)
    ∧ (a.top + inSize * sz ≤ a.capacity →
        ((ArenaAllocatorBase.Allocate a h inSize sz).2.1).top = a.top + inSize * sz)
    ∧ (a.pending = [] → (p - a.mBegin) + inSize * sz = a.top →
        ((ArenaAllocatorBase.Free a h (some p) inSize sz).1).top =
          a.top - inSize * sz)
    ∧ (v.memBlock = some vbase → v.top + inSize * sz ≤ v.reservedSize →
        ((VMemAllocator.Allocate b0 v inSize sz).2).top = v.top + inSize * sz)
    ∧ (a.Owns (some p) = true → a.pending = [] →
        (p - a.mBegin) + inSize * sz = a.top →
        ((TempAllocator.Free a h (some p) inSize sz).1).top =
          a.top - inSize * sz)
    ∧ (v.memBlock = some vbase → (p - vbase) + inSize * sz = v.top →
        (VMemAllocator.Free v (some p) inSize sz).top = v.top - inSize * sz)
    ∧ (a.Owns (some p) = true →
        (p - a.mBegin) + inCurrentSize * sz = a.top →
        (p - a.mBegin) + inNewSize * sz ≤ a.capacity →
        TempAllocator.TryRealloc a (some p) inCurrentSize inNewSize sz =
          some (true, { a with top := (p - a.mBegin) + inNewSize * sz }))
    ∧ ((p - a.mBegin) + inCurrentSize * sz = a.top →
        (p - a.mBegin) + inNewSize * sz ≤ a.capacity →
        ArenaAllocatorBase.TryRealloc a h (some p) inCurrentSize inNewSize sz =
          some ((true, { a with top := (p - a.mBegin) + inNewSize * sz }), h))
    ∧ (v.memBlock = some vbase →
        (p - vbase) + inCurrentSize * sz = v.top →
        (p - vbase) + inNewSize * sz ≤ v.reservedSize →
        (VMemAllocator.TryRealloc v (some p) inCurrentSize inNewSize sz).map
            (fun r => ((r.2).top, r.1)) =
          some ((p - vbase) + inNewSize * sz, true)) := by
  refine ⟨rfl, rfl, fun hfit => ?_, fun hover => ?_, fun hOwns => ?_,
    fun hfit => ?_, fun hpend htop => ?_, fun hinit hfit => ?_,
    fun hOwns hpend htop => ?_, fun hinit htop => ?_,
    fun hOwns htop hfit2 => ?_, fun htop hfit2 => ?_,
    fun hinit htop hfit2 => ?_⟩
  · simp [TempAllocator.Allocate, MemArena.Alloc, MemBlock.isNull, hfit]
  · have hc : ¬(a.top + inSize * sz ≤ a.capacity) := Nat.not_le_of_lt hover
    simp [TempAllocator.Allocate, DefaultAllocator.Allocate, gMemAlloc,
      MemArena.Alloc, MemBlock.isNull, hc]
  · simp [TempAllocator.Free, DefaultAllocator.Free, gMemFree, hOwns]
  · simp [ArenaAllocatorBase.Allocate, MemArena.Alloc, hfit]
  · simp only [ArenaAllocatorBase.Free, MemArena.Free, hpend]
    simp [htop, coalesce_nil]
    omega
  · simp [VMemAllocator.Allocate, VMemArena.Alloc, hinit, hfit]
  · have h1 : TempAllocator.Free a h (some p) inSize sz =
        (a.Free ⟨some p, inSize * sz⟩, h) := by
      simp [TempAllocator.Free, hOwns]
    rw [h1]
    simp only [MemArena.Free, hpend]
    simp [htop, coalesce_nil]
    omega
  · have h1 : VMemAllocator.Free v (some p) inSize sz =
        v.Free ⟨some p, inSize * sz⟩ := rfl
    rw [h1]
    simp only [VMemArena.Free, hinit]
    simp [htop]
    omega
  · have hcond : (p - a.mBegin) + inCurrentSize * sz = a.top
        ∧ (p - a.mBegin) + inNewSize * sz ≤ a.capacity := ⟨htop, hfit2⟩
    simp [TempAllocator.TryRealloc, hOwns, MemArena.TryRealloc, hcond]
  · have hcond : (p - a.mBegin) + inCurrentSize * sz = a.top
        ∧ (p - a.mBegin) + inNewSize * sz ≤ a.capacity := ⟨htop, hfit2⟩
    simp [ArenaAllocatorBase.TryRealloc, MemArena.TryRealloc, hcond]
  · have hcond : (p - vbase) + inCurrentSize * sz = v.top
        ∧ (p - vbase) + inNewSize * sz ≤ v.reservedSize := ⟨htop, hfit2⟩
    simp [VMemAllocator.TryRealloc, VMemArena.TryRealloc, hinit, hcond]

/-- Witness for C3 on the sample states: 2 elements of 4 bytes become
8 bytes for the arena paths and frees, 3 elements of 4 bytes become 12
heap bytes on fallback, and in-place regrows consume 2-element (8-byte)
top blocks and move the cursors to the byte offsets of the new sizes. -/
theorem adapters_convert_counts_to_bytes_witness :
    ((TempAllocator.Allocate sampleArena sampleHeap 2 4).2.1).top =
      sampleArena.top + 2 * 4
    ∧ ((TempAllocator.Allocate sampleArena sampleHeap 3 4).2.2).allocs.head? =
        some ⟨some sampleHeap.next, 3 * 4⟩
    ∧ ((TempAllocator.Free sampleArena sampleHeap (some 10) 2 4).2).freed.head? =
        some ⟨some 10, 2 * 4⟩
    ∧ ((ArenaAllocatorBase.Free sampleArena sampleHeap (some 100) 2 4).1).top =
        sampleArena.top - 2 * 4
    ∧ ((VMemAllocator.Allocate 7 sampleVMem 2 4).2).top = sampleVMem.top + 2 * 4
    ∧ ((TempAllocator.Free sampleArena sampleHeap (some 100) 2 4).1).top =
        sampleArena.top - 2 * 4
    ∧ (VMemAllocator.Free sampleVMemBusy (some 5) 2 4).top =
        sampleVMemBusy.top - 2 * 4
    ∧ TempAllocator.TryRealloc sampleArena (some 100) 2 3 4 =
        some (true, { sampleArena with top := 12 })
    ∧ ArenaAllocatorBase.TryRealloc sampleArena sampleHeap (some 100) 2 1 4 =
        some ((true, { sampleArena with top := 4 }), sampleHeap)
    ∧ (VMemAllocator.TryRealloc sampleVMemBusy (some 5) 2 3 4).map
          (fun r => ((r.2).top, r.1)) =
        some (12, true) :=
  ⟨(adapters_convert_counts_to_bytes sampleArena sampleVMem sampleHeap
      2 0 0 4 10 5 7).2.2.1 (by decide),
   (adapters_convert_counts_to_bytes sampleArena sampleVMem sampleHeap
      3 0 0 4 10 5 7).2.2.2.1 (by decide),
   (adapters_convert_counts_to_bytes sampleArena sampleVMem sampleHeap
      2 0 0 4 10 5 7).2.2.2.2.1 (by decide),
   (adapters_convert_counts_to_bytes sampleArena sampleVMem sampleHeap
      2 0 0 4 100 5 7).2.2.2.2.2.2.1 (by decide) (by decide),
   (adapters_convert_counts_to_bytes sampleArena sampleVMem sampleHeap
      2 0 0 4 10 5 7).2.2.2.2.2.2.2.1 (by decide) (by decide),
   (adapters_convert_counts_to_bytes sampleArena sampleVMem sampleHeap
      2 0 0 4 100 5 7).2.2.2.2.2.2.2.2.1 (by decide) (by decide) (by decide),
   (adapters_convert_counts_to_bytes sampleArena sampleVMemBusy sampleHeap
      2 0 0 4 5 5 7).2.2.2.2.2.2.2.2.2.1 (by decide) (by decide),
   (adapters_convert_counts_to_bytes sampleArena sampleVMem sampleHeap
      2 2 3 4 100 5 7).2.2.2.2.2.2.2.2.2.2.1 (by decide) (by decide) (by decide),
   (adapters_convert_counts_to_bytes sampleArena sampleVMem sampleHeap
      2 2 1 4 100 5 7).2.2.2.2.2.2.2.2.2.2.2.1 (by decide) (by decide),
   (adapters_convert_counts_to_bytes sampleArena sampleVMemBusy sampleHeap
      2 2 3 4 5 5 7).2.2.2.2.2.2.2.2.2.2.2.2 (by decide) (by decide) (by decide)⟩

/-- C6: a default-constructed VMem adapter holds no reservation; the
first `Allocate` detects the null arena block and initializes the arena
with the default reserved and commit sizes; after any `Allocate` the
arena is initialized; an already-initialized arena keeps its base
address across `Allocate` (the transition happens at most once), and
`Free` and `TryRealloc` never change the base address (the transition
is never reversed). -/
theorem vmem_lazy_initialization (a : VMemArena) (b0 b inSize sz
    inCurrentSize inNewSize : Nat) (inPtr : Ptr) :
    VMemArena.mkDefault.memBlock = none
    ∧ ((VMemAllocator.Allocate b0 a inSize sz).2).memBlock.isSome = true
    ∧ (a.memBlock = none →
        ((VMemAllocator.Allocate b0 a inSize sz).2).memBlock = some b0
        ∧ ((VMemAllocator.Allocate b0 a inSize sz).2).reservedSize =
            cDefaultReservedSize
        ∧ ((VMemAllocator.Allocate b0 a inSize sz).2).commitIncreaseSize =
            cDefaultCommitSize)
    ∧ (a.memBlock = some b →
        ((VMemAllocator.Allocate b0 a inSize sz).2).memBlock = some b)
    ∧ (VMemAllocator.Free a inPtr inSize sz).memBlock = a.memBlock
    ∧ (∀ r, VMemAllocator.TryRealloc a inPtr inCurrentSize inNewSize sz = some r →
        (r.2).memBlock = a.memBlock) := by
  refine ⟨rfl, ?_, fun hnone => ?_, fun hsome => ?_, ?_, fun r hr => ?_⟩
  · cases hm : a.memBlock with
    | none =>
        simp only [VMemAllocator.Allocate, hm, if_pos trivial]
        have hp := vmemAlloc_preserves
          (VMemArena.reserve b0 cDefaultReservedSize cDefaultCommitSize)
          (inSize * sz)
        rw [hp.1]
        rfl
    | some base =>
        have hne : ¬(a.memBlock = none) := by simp [hm]
        simp only [VMemAllocator.Allocate, if_neg hne]
        have hp := vmemAlloc_preserves a (inSize * sz)
        simp [hp.1, hm]
  · have hne := hnone
    simp only [VMemAllocator.Allocate, hnone, if_pos trivial]
    have hp := vmemAlloc_preserves
      (VMemArena.reserve b0 cDefaultReservedSize cDefaultCommitSize)
      (inSize * sz)
    refine ⟨?_, ?_, ?_⟩
    · rw [hp.1]
      rfl
    · rw [hp.2.1]
      rfl
    · rw [hp.2.2]
      rfl
  · have hne : ¬(a.memBlock = none) := by simp [hsome]
    simp only [VMemAllocator.Allocate, if_neg hne]
    have hp := vmemAlloc_preserves a (inSize * sz)
    simp [hp.1, hsome]
  · exact vmemFree_preserves a ⟨inPtr, inSize * sz⟩
  · cases inPtr with
    | none => simp [VMemAllocator.TryRealloc] at hr
    | some p =>
        simp only [VMemAllocator.TryRealloc] at hr
        have hr2 : r = a.TryRealloc ⟨some p, inCurrentSize * sz⟩ (inNewSize * sz) :=
          (Option.some.injEq _ _).mp hr |>.symm
        rw [hr2]
        exact vmemTryRealloc_preserves a ⟨some p, inCurrentSize * sz⟩ (inNewSize * sz)

/-- Witness for C6: allocating on a default-constructed adapter
initializes the arena (base chosen by the OS, here 7) with the default
sizes; allocating on the already-initialized sample arena keeps its
base 5; a successful in-place regrow also keeps base 5. -/
theorem vmem_lazy_initialization_witness :
    (((VMemAllocator.Allocate 7 VMemArena.mkDefault 2 4).2).memBlock = some 7
      ∧ ((VMemAllocator.Allocate 7 VMemArena.mkDefault 2 4).2).reservedSize =
          cDefaultReservedSize
      ∧ ((VMemAllocator.Allocate 7 VMemArena.mkDefault 2 4).2).commitIncreaseSize =
          cDefaultCommitSize)
    ∧ ((VMemAllocator.Allocate 7 sampleVMem 2 4).2).memBlock = some 5
    ∧ (VMemArena.mk (some 5) 100 10 10 4).memBlock = sampleVMem.memBlock :=
  ⟨(vmem_lazy_initialization VMemArena.mkDefault 7 5 2 4 0 1 (some 5)).2.2.1 rfl,
   (vmem_lazy_initialization sampleVMem 7 5 2 4 0 1 (some 5)).2.2.2.1 rfl,
   (vmem_lazy_initialization sampleVMem 7 5 2 4 0 1 (some 5)).2.2.2.2.2
     (true, ⟨some 5, 100, 10, 10, 4⟩) (by decide)⟩

/-- Running a test function leaves the success flag true exactly when
it started true and no action of the body was a `gFailTest` call. -/
theorem foldl_runTestAction_success (acts : List TestAction) (s : TestState) :
    (acts.foldl runTestAction s).sCurrentTestSuccess = true ↔
      (s.sCurrentTestSuccess = true ∧ TestAction.failTest ∉ acts) := by
  induction acts generalizing s with
  | nil => simp
  | cons act as ih =>
      cases act with
      | failTest =>
          simp only [List.foldl_cons, runTestAction, ih, gFailTest,
            List.mem_cons]
          simp
      | other =>
          simp only [List.foldl_cons, runTestAction, ih, List.mem_cons]
          simp

/-- The aggregate fold of `gRunTests` is true exactly when it started
true and every test case passed. -/
theorem foldl_and_runTestCase (tests : List Test) (acc : Bool) :
    tests.foldl (fun b t => b && runTestCase t) acc = true ↔
      (acc = true ∧ ∀ t ∈ tests, runTestCase t = true) := by
  induction tests generalizing acc with
  | nil => simp
  | cons t ts ih =>
      simp only [List.foldl_cons, ih, Bool.and_eq_true, List.mem_cons]
      constructor
      · rintro ⟨⟨hacc, ht⟩, hts⟩
        exact ⟨hacc, fun u hu => hu.elim (fun he => he ▸ ht) (hts u)⟩
      · rintro ⟨hacc, hall⟩
        exact ⟨⟨hacc, hall t (Or.inl rfl)⟩, fun u hu => hall u (Or.inr hu)⟩

/-- C7: `gRunTests` returns `Success` exactly when every registered
test case ran without any `gFailTest` call during it (the aggregate is
the conjunction of the per-case flags), and `gFailTest` sets the
current test's success flag to false. -/
theorem run_tests_success_iff (tests : List Test) :
    (gRunTests tests = TestResult.Success ↔
      ∀ t ∈ tests, TestAction.failTest ∉ t.mFunction)
    ∧ (∀ s : TestState, (gFailTest s).sCurrentTestSuccess = false) := by
  refine ⟨?_, fun s => rfl⟩
  have hiff : (tests.foldl (fun b t => b && runTestCase t) true = true) ↔
      (∀ t ∈ tests, TestAction.failTest ∉ t.mFunction) := by
    rw [foldl_and_runTestCase]
    simp only [true_and]
    constructor
    · intro h1 t ht
      have h2 := h1 t ht
      rw [runTestCase, foldl_runTestAction_success] at h2
      exact h2.2
    · intro h1 t ht
      rw [runTestCase, foldl_runTestAction_success]
      exact ⟨rfl, h1 t ht⟩
  by_cases hall : tests.foldl (fun b t => b && runTestCase t) true = true
  · constructor
    · intro hres
      exact hiff.mp hall
    · intro hp
      simp [gRunTests, hall]
  · have hfalse : tests.foldl (fun b t => b && runTestCase t) true = false :=
      Bool.not_eq_true _ ▸ Bool.of_not_eq_true hall
    constructor
    · intro habs
      exact absurd habs (by simp [gRunTests, hfalse])
    · intro hp
      exact absurd (hiff.mpr hp) hall

/-- C10: for a span of size `n` and a position `p` that passes the
bounds check (`0 ≤ p ≤ n`), `SubSpan(p, c)` returns the span starting
at element `p` whose size is `c` clamped to the `n - p` remaining
elements. -/
theorem subSpan_clamps_count (s : Span) (inPosition inCount : Int)
    (h0 : 0 ≤ inPosition) (h1 : inPosition ≤ s.mSize) :
    s.SubSpan inPosition inCount =
      some ⟨s.mData + inPosition, min inCount (s.mSize - inPosition)⟩ := by
  have hb : gBoundsCheck inPosition s.mSize = true := by
    simp [gBoundsCheck, h0, h1]
  have hmin : gMin inCount (s.mSize - inPosition) =
      min inCount (s.mSize - inPosition) := by
    unfold gMin
    rcases lt_or_ge inCount (s.mSize - inPosition) with hlt | hge
    · rw [if_pos hlt, min_eq_left hlt.le]
    · rw [if_neg (not_lt.mpr hge), min_eq_right hge]
  simp [Span.SubSpan, hb, hmin]

/-- Witness for C10: a span of 5 elements starting at 10; position 2
passes the bounds check and a request of 100 elements is clamped to
the 3 remaining. -/
theorem subSpan_clamps_count_witness :
    Span.SubSpan ⟨10, 5⟩ 2 100 = some ⟨10 + 2, min 100 (5 - 2)⟩ :=
  subSpan_clamps_count ⟨10, 5⟩ 2 100 (by decide) (by decide)
